import Mathlib

/-!
Verification of the fbottarel/Mask_RCNN example repository.

The repository consists of glue code around an external Mask R-CNN
library: a demo notebook (samples/humanoids_pouring/demo.ipynb) and a
CLI script for the tabletop example documented in
samples/tabletop/README.md.  The notebook is embedded below as a
straight-line statement list with a small-step interpreter; the parts
of the repository that are only documented (tabletop.py,
configurations.py, datasets.py) are modelled from the specification,
with each such definition marked by a doc comment.
-/

/-! ## Embedding of samples/humanoids_pouring/demo.ipynb -/

/-- Which on-disk source an image assigned to the notebook variable
`image` was read from: the random validation-set record, or a random
file of the repository images directory. -/
inductive ImgSrc where
  | valSet
  | imagesDir
deriving DecidableEq, BEq, Repr

/-- The mode string passed to the MaskRCNN constructor. -/
inductive ModelMode where
  | inference
  | training
deriving DecidableEq, BEq, Repr

/-- One top-level statement of the demo notebook, in source order.
The last three constructors are concurrency primitives that the
notebook could, in principle, contain; the embedded program below
shows it contains none of them. -/
inductive Stmt where
  | importLibs
  | setRootAndModelDirs
  | assertWeightsExist
  | setImageDir
  | constructConfig
  | setDetectionMinConfidence
  | displayConfig
  | setCudaEnv
  | constructModel (mode : ModelMode)
  | loadWeights
  | setDatasetRoot
  | constructDataset
  | loadValDataset
  | pickRandomValInfo
  | readImage (src : ImgSrc)
  | listImageDir
  | recordStartTime
  | detect
  | printElapsed
  | takeFirstResult
  | displayInstances
  | spawnThread
  | acquireLock
  | scheduleAsync
deriving DecidableEq, BEq, Repr

/-- The demo notebook, cell by cell, statement by statement, as written
in samples/humanoids_pouring/demo.ipynb. -/
def demoProgram : List Stmt :=
  [ Stmt.importLibs, Stmt.setRootAndModelDirs, Stmt.assertWeightsExist,
    Stmt.setImageDir,
    Stmt.constructConfig, Stmt.setDetectionMinConfidence,
    Stmt.displayConfig, Stmt.setCudaEnv,
    Stmt.constructModel ModelMode.inference, Stmt.loadWeights,
    Stmt.setDatasetRoot, Stmt.constructDataset, Stmt.loadValDataset,
    Stmt.pickRandomValInfo, Stmt.readImage ImgSrc.valSet,
    Stmt.listImageDir, Stmt.readImage ImgSrc.imagesDir,
    Stmt.recordStartTime, Stmt.detect, Stmt.printElapsed,
    Stmt.takeFirstResult, Stmt.displayInstances ]

/-- Interpreter state for the notebook: which objects have been
created, which image the variable `image` currently holds, and what
detection and visualization were invoked on. -/
structure NbState where
  configConstructed : Bool := false
  modelMode : Option ModelMode := none
  weightsLoaded : Bool := false
  datasetLoaded : Bool := false
  image : Option ImgSrc := none
  detectInput : Option ImgSrc := none
  detectAfterWeights : Bool := true
  resultTaken : Bool := false
  visualizedImage : Option ImgSrc := none
deriving DecidableEq, Repr

/-- One small step of the notebook.  `weightsOnDisk` says whether the
trained weights file exists at TRAINED_MODEL_PATH; the assert statement
fails (returns `none`, an uncaught AssertionError) exactly when it does
not.  All other statements succeed. -/
def demoStep (weightsOnDisk : Bool) (s : NbState) : Stmt → Option NbState
  | Stmt.assertWeightsExist =>
      if weightsOnDisk then some s else none
  | Stmt.constructConfig => some { s with configConstructed := true }
  | Stmt.constructModel m => some { s with modelMode := some m }
  | Stmt.loadWeights => some { s with weightsLoaded := true }
  | Stmt.loadValDataset => some { s with datasetLoaded := true }
  | Stmt.readImage src => some { s with image := some src }
  | Stmt.detect =>
      some { s with detectInput := s.image,
                    detectAfterWeights := s.detectAfterWeights && s.weightsLoaded }
  | Stmt.takeFirstResult => some { s with resultTaken := true }
  | Stmt.displayInstances => some { s with visualizedImage := s.image }
  | _ => some s

/-- Outcome of running the notebook top to bottom: either every
statement completed, or an assertion failed and execution halted
with the state reached at that point (nothing after the failing
statement runs: there is no recovery or retry). -/
inductive DemoResult where
  | completed (s : NbState)
  | assertionError (s : NbState)
deriving DecidableEq, Repr

/-- Run a statement list from a state, halting at the first failing
statement. -/
def demoRun (weightsOnDisk : Bool) : NbState → List Stmt → DemoResult
  | s, [] => DemoResult.completed s
  | s, t :: rest =>
    match demoStep weightsOnDisk s t with
    | none => DemoResult.assertionError s
    | some next => demoRun weightsOnDisk next rest

/-- The initial notebook state: nothing constructed or loaded. -/
def initState : NbState := {}

/-- The final state of a complete top-to-bottom run of the notebook,
or `none` when the run halted with an uncaught error. -/
def finalState (weightsOnDisk : Bool) : Option NbState :=
  match demoRun weightsOnDisk initState demoProgram with
  | DemoResult.completed s => some s
  | DemoResult.assertionError _ => none

/-- Recognizes the concurrency primitives among possible notebook
statements. -/
def isConcurrencyStmt : Stmt → Bool
  | Stmt.spawnThread => true
  | Stmt.acquireLock => true
  | Stmt.scheduleAsync => true
  | _ => false

/-! ## The random validation-image index (demo.ipynb cell 5) -/

/-- A record of `dataset_val.image_info`: the demo notebook reads the
image from its `path` field. -/
structure ImageInfo where
  path : String
deriving DecidableEq, Repr

/-- The set of possible return values of Python `random.randint a b`:
both endpoints are included. -/
def randintVals (a b : Nat) : List Nat :=
  (List.range (b + 1 - a)).map (fun k => a + k)

/-- The notebook lookup
`image_info[random.randint(0, len(image_info))]`, with the drawn index
made explicit; `none` models an uncaught IndexError. -/
def pickRandomValImgInfo (image_info : List ImageInfo) (draw : Nat) :
    Option ImageInfo :=
  image_info.get? draw

/-- A sample validation image path, standing for a concrete record. -/
def sampleValImagePath : String := "datasets/bottles/data/0001/000001-color.png"

/-- A one-record `image_info` list, the smallest non-empty validation
dataset. -/
def singleImageInfoList : List ImageInfo := [{ path := sampleValImagePath }]

/-! ## The tabletop.py CLI, modelled from the spec

tabletop.py itself is not among the provided source files; only its
usage text (samples/tabletop/README.md) and the spec describe it. -/

/-- The raw command line: the positional command, if one was supplied,
and the value of each flag, if supplied. -/
structure CliInput where
  command : Option String
  dataset : Option String
  weights : Option String
  logs : Option String
  image : Option String
  video : Option String
deriving DecidableEq, Repr

/-- The parsed arguments of tabletop.py after a successful parse:
command and weights are present, logs has received its default when
omitted, the rest stay optional. -/
structure Args where
  command : String
  dataset : Option String
  weights : String
  logs : String
  image : Option String
  video : Option String
deriving DecidableEq, Repr

/-- The three commands the CLI accepts. -/
def validCommand (c : String) : Bool :=
  decide (c = "train") || decide (c = "splash") || decide (c = "evaluate")

/-- The documented default of the `logs` flag. -/
def logsDefault : String := "logs/"

/-- Modelled from the spec: the argument parser of tabletop.py, which
is not among the provided sources.  Per the spec CLI surface and the
README usage text, exactly one positional command drawn from train,
splash, evaluate is required, `weights` is required, `dataset`,
`image` and `video` are optional, and `logs` defaults to `logs/`.
`none` models the parser rejecting the command line. -/
def parseArgs (i : CliInput) : Option Args :=
  match i.command, i.weights with
  | some c, some w =>
    if validCommand c then
      some { command := c, dataset := i.dataset, weights := w,
             logs := i.logs.getD logsDefault, image := i.image,
             video := i.video }
    else none
  | some _, none => none
  | none, _ => none

/-- The call on the external model object each command dispatches to. -/
inductive ModelAction where
  | trainModel
  | detectAndSplash
  | evaluateModel
deriving DecidableEq, Repr

/-- Modelled from the spec: the main dispatch of tabletop.py, which is
not among the provided sources.  Per the spec, after argument parsing
the script is a three-way dispatch: train invokes the external training
call, splash invokes detection, evaluate invokes evaluation, and
nothing else happens. -/
def dispatch (a : Args) : Option ModelAction :=
  if a.command = "train" then some ModelAction.trainModel
  else if a.command = "splash" then some ModelAction.detectAndSplash
  else if a.command = "evaluate" then some ModelAction.evaluateModel
  else none

/-- The effect of the splash command: detection results overlaid on
the named image or on the frames of the named video. -/
inductive SplashOutput where
  | imageOverlay (p : String)
  | videoOverlay (p : String)
deriving DecidableEq, Repr

/-- Modelled from the spec: the splash mode of tabletop.py, which is
not among the provided sources.  Per the spec and README, splash
overlays detection results on an image or a video frame, the input
being supplied by the `image` or the `video` flag; with neither,
there is nothing to run on. -/
def runSplash (a : Args) : Option SplashOutput :=
  match a.image with
  | some p => some (SplashOutput.imageOverlay p)
  | none =>
    match a.video with
    | some p => some (SplashOutput.videoOverlay p)
    | none => none

/-- Sample command string. -/
def trainCmd : String := "train"

/-- Sample command string. -/
def splashCmd : String := "splash"

/-- Sample weights argument (the literal accepted besides a .h5 path). -/
def cocoWeights : String := "coco"

/-- Sample image path for the splash examples. -/
def samplePicPath : String := "images/sample.png"

/-- A concrete parsed command line for the train command. -/
def trainArgs : Args :=
  { command := trainCmd, dataset := none, weights := cocoWeights,
    logs := logsDefault, image := none, video := none }

/-- A concrete parsed command line for splash on an image. -/
def splashImageArgs : Args :=
  { command := splashCmd, dataset := none, weights := cocoWeights,
    logs := logsDefault, image := some samplePicPath, video := none }

/-! ## The inference configuration, modelled from the spec

configurations.py is not among the provided source files; the spec
describes the configuration as a record of named hyperparameters
with no invariants beyond basic type constraints. -/

/-- Modelled from the spec: the YCBVideoConfigInference value object of
configurations.py, which is not among the provided sources.  Per the
spec it is a plain container of named hyperparameters: the detection
confidence threshold, the GPU selection, and steps per epoch. -/
structure YCBVideoConfigInference where
  DETECTION_MIN_CONFIDENCE : Rat
  GPU_ID : String
  STEPS_PER_EPOCH : Nat
deriving DecidableEq, Repr

/-- The notebook assignment `config.DETECTION_MIN_CONFIDENCE = v`: a
plain field update on the value container. -/
def set_DETECTION_MIN_CONFIDENCE (c : YCBVideoConfigInference) (v : Rat) :
    YCBVideoConfigInference :=
  { c with DETECTION_MIN_CONFIDENCE := v }

/-! ## The dataset adapter, modelled from the spec

datasets.py is not among the provided source files; the spec describes
the adapter as reading an index file and populating a list of image
records. -/

/-- The in-memory dataset the notebook consumes: the `image_info`
records and the `class_names` list handed to visualization. -/
structure YCBVideoDataset where
  image_info : List ImageInfo
  class_names : List String
deriving DecidableEq, Repr

/-- The on-disk material `load_dataset` consumes: for each split name,
the entries of that split index file, and the object class list of the
dataset. -/
structure DatasetFiles where
  indexLines : String → List String
  classes : List String

/-- The background class that heads a Mask R-CNN class-name list. -/
def backgroundClassName : String := "BG"

/-- The split name the demo notebook passes. -/
def valSplit : String := "val"

/-- Modelled from the spec: YCBVideoDataset.load_dataset of
datasets.py, which is not among the provided sources.  Per the spec its
only behavior is to read the index file of the requested split and
populate one image record per indexed entry, each carrying the path the
image can be read from under the dataset root, together with the class
names used for visualization. -/
def load_dataset (fs : DatasetFiles) (root split : String) :
    YCBVideoDataset :=
  { image_info := (fs.indexLines split).map
      (fun entry => { path := root ++ "/" ++ entry }),
    class_names := backgroundClassName :: fs.classes }

/-! ## Helper lemmas -/

/-- A successful parse means the command was valid and the logs field
received either the supplied value or its default. -/
theorem parseArgs_some (i : CliInput) (a : Args) (h : parseArgs i = some a) :
    validCommand a.command = true ∧ a.logs = i.logs.getD logsDefault := by
  obtain ⟨cmd, ds, w, lg, im, vid⟩ := i
  cases cmd with
  | none => simp [parseArgs] at h
  | some c =>
    cases w with
    | none => simp [parseArgs] at h
    | some wt =>
      by_cases hv : validCommand c = true
      · simp [parseArgs, hv] at h
        subst h
        exact ⟨hv, rfl⟩
      · simp [parseArgs, hv] at h

/-- A valid command is one of the three literals. -/
theorem validCommand_cases (c : String) (h : validCommand c = true) :
    c = "train" ∨ c = "splash" ∨ c = "evaluate" := by
  simp [validCommand] at h
  tauto

/-! ## Claim theorems -/

/-- Claim C1: the tabletop.py CLI accepts exactly one positional
command, which must be one of train, splash or evaluate; the weights
argument is required; dataset, logs, image and video are optional, and
logs defaults to the directory logs/. -/
theorem cli_surface :
    (∀ c ds w lg im vid,
      (parseArgs ⟨some c, ds, some w, lg, im, vid⟩).isSome = validCommand c)
    ∧ (∀ i : CliInput, i.weights = none → parseArgs i = none)
    ∧ (∀ i : CliInput, i.command = none → parseArgs i = none)
    ∧ (∀ i : CliInput, ∀ a : Args, parseArgs i = some a →
        validCommand a.command = true ∧ a.logs = i.logs.getD logsDefault)
    ∧ (∀ c w, validCommand c = true →
        parseArgs ⟨some c, none, some w, none, none, none⟩
          = some { command := c, dataset := none, weights := w,
                   logs := logsDefault, image := none, video := none }) := by
  refine ⟨?_, ?_, ?_, ?_, ?_⟩
  · intro c ds w lg im vid
    cases hv : validCommand c <;> simp [parseArgs, hv]
  · intro i h
    obtain ⟨cmd, ds, w, lg, im, vid⟩ := i
    cases cmd <;> simp_all [parseArgs]
  · intro i h
    obtain ⟨cmd, ds, w, lg, im, vid⟩ := i
    simp_all [parseArgs]
  · intro i a h
    exact parseArgs_some i a h
  · intro c w hv
    simp [parseArgs, hv]

/-- Witness for cli_surface: the README train example with weights
coco and every optional flag omitted parses, and logs receives its
default. -/
theorem cli_surface_witness :
    validCommand trainCmd = true
    ∧ parseArgs ⟨some trainCmd, none, some cocoWeights, none, none, none⟩
        = some { command := trainCmd, dataset := none, weights := cocoWeights,
                 logs := logsDefault, image := none, video := none } :=
  ⟨by decide, cli_surface.2.2.2.2 trainCmd cocoWeights (by decide)⟩

/-- Claim C2: run top to bottom, the demo notebook constructs the model
in inference mode, then loads the trained weights, then loads an input
image, then runs detection, then visualizes the results; detection is
never invoked before the weights have been loaded. -/
theorem demo_cell_order :
    demoProgram.findIdx
        (fun t => decide (t = Stmt.constructModel ModelMode.inference))
      < demoProgram.findIdx (fun t => decide (t = Stmt.loadWeights))
    ∧ demoProgram.findIdx (fun t => decide (t = Stmt.loadWeights))
      < demoProgram.findIdx (fun t => decide (t = Stmt.readImage ImgSrc.valSet))
    ∧ demoProgram.findIdx (fun t => decide (t = Stmt.readImage ImgSrc.valSet))
      < demoProgram.findIdx
          (fun t => decide (t = Stmt.readImage ImgSrc.imagesDir))
    ∧ demoProgram.findIdx (fun t => decide (t = Stmt.readImage ImgSrc.imagesDir))
      < demoProgram.findIdx (fun t => decide (t = Stmt.detect))
    ∧ demoProgram.findIdx (fun t => decide (t = Stmt.detect))
      < demoProgram.findIdx (fun t => decide (t = Stmt.displayInstances))
    ∧ (finalState true).map NbState.modelMode = some (some ModelMode.inference)
    ∧ (finalState true).map NbState.detectAfterWeights = some true := by
  decide

/-- Claim C3: when the trained weights file is missing, the notebook
halts with an uncaught AssertionError in the very first cell, before
the model object is constructed, before weights are loaded and before
any detection; no completed run (and hence no recovery or retry)
exists. -/
theorem missing_weights_uncaught :
    demoRun false initState demoProgram = DemoResult.assertionError initState
    ∧ initState.modelMode = none
    ∧ initState.weightsLoaded = false
    ∧ initState.detectInput = none
    ∧ finalState false = none := by
  decide

/-- Claim C4 (code bug): Python random.randint is inclusive of its
upper bound, so on a one-record validation dataset the draw 1 is among
the possible outcomes of randint(0, len(image_info)) and the lookup
image_info[1] is out of bounds (an uncaught IndexError, modelled by
`none`). -/
theorem randint_index_out_of_bounds :
    singleImageInfoList.length = 1
    ∧ 1 ∈ randintVals 0 singleImageInfoList.length
    ∧ pickRandomValImgInfo singleImageInfoList 1 = none
    ∧ randintVals 0 singleImageInfoList.length = [0, 1] := by
  decide

/-- Claim C5: load_dataset on the validation split populates one image
record per entry of the validation index file, each carrying a path
under the dataset root, and populates the class names used by
visualization; its output is nothing but these two fields. -/
theorem load_dataset_populates (fs : DatasetFiles) (root : String) :
    (load_dataset fs root valSplit).image_info.length
        = (fs.indexLines valSplit).length
    ∧ (load_dataset fs root valSplit).image_info.map ImageInfo.path
        = (fs.indexLines valSplit).map (fun entry => root ++ "/" ++ entry)
    ∧ (load_dataset fs root valSplit).class_names
        = backgroundClassName :: fs.classes
    ∧ 0 < (load_dataset fs root valSplit).class_names.length := by
  refine ⟨?_, ?_, rfl, ?_⟩
  · simp [load_dataset]
  · simp [load_dataset]
  · simp [load_dataset]

/-- Claim C6: assigning DETECTION_MIN_CONFIDENCE = 0.8 on the
inference configuration changes only that field; GPU_ID and
STEPS_PER_EPOCH keep the values they had before the assignment. -/
theorem config_assignment_frame (c : YCBVideoConfigInference) :
    (set_DETECTION_MIN_CONFIDENCE c (0.8 : Rat)).DETECTION_MIN_CONFIDENCE
        = (0.8 : Rat)
    ∧ (set_DETECTION_MIN_CONFIDENCE c (0.8 : Rat)).GPU_ID = c.GPU_ID
    ∧ (set_DETECTION_MIN_CONFIDENCE c (0.8 : Rat)).STEPS_PER_EPOCH
        = c.STEPS_PER_EPOCH :=
  ⟨rfl, rfl, rfl⟩

/-- Claim C7: in a full run of the notebook, the image handed to
model.detect and to the visualization is the one read from the
repository images directory in the later cell; the validation-set
image read just before is overwritten and is never detected or
visualized. -/
theorem val_image_overwritten :
    demoProgram.findIdx (fun t => decide (t = Stmt.readImage ImgSrc.valSet))
      < demoProgram.findIdx
          (fun t => decide (t = Stmt.readImage ImgSrc.imagesDir))
    ∧ (finalState true).map NbState.detectInput = some (some ImgSrc.imagesDir)
    ∧ (finalState true).map NbState.visualizedImage
        = some (some ImgSrc.imagesDir)
    ∧ (((finalState true).map NbState.detectInput
          == some (some ImgSrc.valSet)) = false)
    ∧ (((finalState true).map NbState.visualizedImage
          == some (some ImgSrc.valSet)) = false) := by
  decide

/-- Claim C8: the CLI is argument parsing followed by a three-way
dispatch: train invokes the training call, splash invokes detection,
evaluate invokes evaluation, and every successfully parsed command
line dispatches to exactly one such call. -/
theorem cli_dispatch :
    (∀ a : Args, a.command = "train" →
      dispatch a = some ModelAction.trainModel)
    ∧ (∀ a : Args, a.command = "splash" →
      dispatch a = some ModelAction.detectAndSplash)
    ∧ (∀ a : Args, a.command = "evaluate" →
      dispatch a = some ModelAction.evaluateModel)
    ∧ (∀ i : CliInput, ∀ a : Args, parseArgs i = some a →
      (dispatch a).isSome = true) := by
  refine ⟨?_, ?_, ?_, ?_⟩
  · intro a h
    simp [dispatch, h]
  · intro a h
    simp [dispatch, h]
  · intro a h
    simp [dispatch, h]
  · intro i a h
    rcases validCommand_cases a.command (parseArgs_some i a h).1
      with hc | hc | hc <;> simp [dispatch, hc]

/-- Witness for cli_dispatch: the parsed train command line dispatches
to the training call. -/
theorem cli_dispatch_witness :
    trainArgs.command = "train"
    ∧ dispatch trainArgs = some ModelAction.trainModel :=
  ⟨rfl, cli_dispatch.1 trainArgs rfl⟩

/-- Claim C9: splash overlays detection results on the image supplied
by the image flag, or failing that on the video supplied by the video
flag, and it has an input exactly when one of the two flags was
given. -/
theorem splash_input_source :
    (∀ a : Args, ∀ p, a.image = some p →
      runSplash a = some (SplashOutput.imageOverlay p))
    ∧ (∀ a : Args, ∀ p, a.image = none → a.video = some p →
      runSplash a = some (SplashOutput.videoOverlay p))
    ∧ (∀ a : Args, (runSplash a).isSome = (a.image.isSome || a.video.isSome)) := by
  refine ⟨?_, ?_, ?_⟩
  · intro a p h
    simp [runSplash, h]
  · intro a p h1 h2
    simp [runSplash, h1, h2]
  · intro a
    obtain ⟨c, ds, w, lg, im, vid⟩ := a
    cases im <;> cases vid <;> simp [runSplash]

/-- Witness for splash_input_source: splash on a concrete command line
carrying an image path overlays detection results on that image. -/
theorem splash_input_source_witness :
    splashImageArgs.image = some samplePicPath
    ∧ runSplash splashImageArgs
        = some (SplashOutput.imageOverlay samplePicPath) :=
  ⟨rfl, splash_input_source.1 splashImageArgs samplePicPath rfl⟩

/-- Claim C10: the notebook is a straight-line sequential script: no
statement is a thread spawn, lock acquisition or asynchronous
scheduling, the blocking detect call is immediately followed in the
same cell by consuming its first result and visualizing it, and a full
run does consume the result. -/
theorem demo_no_concurrency :
    demoProgram.any isConcurrencyStmt = false
    ∧ demoProgram.findIdx (fun t => decide (t = Stmt.detect)) + 4
        = demoProgram.length
    ∧ demoProgram.drop
        (demoProgram.findIdx (fun t => decide (t = Stmt.detect)))
        = [Stmt.detect, Stmt.printElapsed, Stmt.takeFirstResult,
           Stmt.displayInstances]
    ∧ (finalState true).map NbState.resultTaken = some true := by
  decide
